import Mathlib

/-!
Verification of the creation-operator catalog of the Rx reactive runtime
(`rx/linq/observable_creation.py`) against its design specification.

The operators are embedded shallowly.  An observer is modelled by the finite
trace of notifications a subscription delivers to it, a disposable by the
tree of resources that disposing it releases, and an observable by the pair
of the trace and the disposable its `subscribe` produces.

Modelled from the spec (the scheduler, observer and disposable modules are
not part of the excerpt): the immediate scheduler runs a scheduled action
synchronously before `schedule` returns, and the current-thread trampoline
scheduler drains chained `schedule_recursive` continuations in FIFO order
on the calling context.  Since every creation operator schedules at most
one continuation per action, a subscription's trace is exactly the
sequential unfolding of its recursive action, which is how the loop
functions below are written.  Iterative loops that need not terminate
(`generate`) take an explicit fuel bound: a trace with fuel `n` is the
prefix of the subscription's notifications produced by the first `n`
trampoline iterations.
-/

set_option autoImplicit false

namespace RxCreation

/-- Modelled from the spec: an observer is a capability set
`on_next / on_error / on_completed`; a subscription is characterised by the
ordered trace of these calls, which we record as a list of events.
`ε` is the type of error objects, `α` the element type. -/
inductive Event (ε α : Type) where
  | on_next (value : α)
  | on_error (error : ε)
  | on_completed
  deriving DecidableEq, Repr

namespace Event

variable {ε α : Type}

/-- Does the event carry an error notification? -/
def isOnError : Event ε α → Bool
  | .on_error _ => true
  | _ => false

/-- Does the event carry a value notification? -/
def isOnNext : Event ε α → Bool
  | .on_next _ => true
  | _ => false

/-- Does the event signal completion? -/
def isOnCompleted : Event ε α → Bool
  | .on_completed => true
  | _ => false

end Event

/-- A model of the Python values used as errors, fine enough to express the
check `type(exception) is Exception` on line 258 of the source: an instance
of exactly the base `Exception` class (with no argument, or with a single
argument, which is all the wrapping `Exception(exception)` produces), an
instance of a proper subclass of `Exception` (identified by a class tag),
or a non-exception value. -/
inductive PyVal : Type where
  | exc_base_noarg : PyVal
  | exc_base_arg (a : PyVal) : PyVal
  | exc_sub (cls : Nat) : PyVal
  | plain (n : Int) : PyVal
  deriving DecidableEq, Repr

/-- `type(v) is Exception` for the modelled Python values: true exactly on
instances of the base `Exception` class itself. -/
def type_is_exception : PyVal → Bool
  | .exc_base_noarg => true
  | .exc_base_arg _ => true
  | _ => false

/-- Line 258 of the source:
`exception = Exception(exception) if type(exception) is Exception else exception`.
`Exception(e)` is a fresh instance of the base class carrying `e` as its
single argument. -/
def throw_wrap (exception : PyVal) : PyVal :=
  if type_is_exception exception then PyVal.exc_base_arg exception else exception

/-- Modelled from the spec: a disposable is a single-shot release
capability; we record the tree of resources (of type `ρ`) that disposing it
releases.  `empty` is the no-op singleton `Disposable.empty()`, `resource`
a user resource used as its own disposable, `composite` a
`CompositeDisposable` of two children. -/
inductive Disp (ρ : Type) where
  | empty
  | resource (r : ρ)
  | composite (d1 d2 : Disp ρ)
  deriving DecidableEq, Repr

/-- The resources released when a disposable is disposed (every child of a
composite is disposed exactly once, so the collection is a plain list). -/
def Disp.resources {ρ : Type} : Disp ρ → List ρ
  | .empty => []
  | .resource r => [r]
  | .composite d1 d2 => d1.resources ++ d2.resources

/-- Modelled from the spec: an observable wraps a subscribe function
`(Observer) -> Disposable`; in the trace model a subscription is
characterised by the event trace it delivers and the disposable it
returns. -/
structure Obs (ε α ρ : Type) where
  events : List (Event ε α)
  disp : Disp ρ
  deriving DecidableEq, Repr

/-- `Observable.subscribe(observer)`: delivers the trace and returns the
disposable. -/
def Obs.subscribe {ε α ρ : Type} (o : Obs ε α ρ) : List (Event ε α) × Disp ρ :=
  (o.events, o.disp)

/-- `throw_exception` (source lines 240-265): wraps the exception per
line 258 at observable-construction time, then every subscription schedules
one action `observer.on_error(exception)` on the (default immediate)
scheduler. -/
def throw_exception (α ρ : Type) (exception : PyVal) : Obs PyVal α ρ :=
  { events := [Event.on_error (throw_wrap exception)], disp := Disp.empty }

/-- The recursive action of `range` (source lines 185-195): with state `i`,
if `i < count` it emits `on_next(start + i)` and re-schedules itself with
`i + 1`, else it emits `on_completed`.  The trampoline drains the chain, so
the trace from state `i` is this sequential unfolding. -/
def range_loop (start count : Int) (i : Int) : List (Event PyVal Int) :=
  if i < count then Event.on_next (start + i) :: range_loop start count (i + 1)
  else [Event.on_completed]
termination_by (count - i).toNat
decreasing_by
  simp_wf
  omega

/-- `range(start, count)` (source lines 166-196): each subscription starts
the recursive action at state `0`. -/
def range_subscribe (start count : Int) : List (Event PyVal Int) :=
  range_loop start count 0

/-- The recursive action of `from_array` (source lines 83-96): with the
per-subscription counter `count`, if `count < len(array)` it emits
`on_next(array[count])`, increments the counter and re-schedules itself,
else it emits `on_completed`. -/
def from_array_loop {α : Type} (array : List α) (count : Nat) : List (Event PyVal α) :=
  if h : count < array.length then
    Event.on_next (array.get ⟨count, h⟩) :: from_array_loop array (count + 1)
  else [Event.on_completed]
termination_by array.length - count

/-- `from_array` constructs (per call of `subscribe`, source line 83) a
fresh counter initialised to `0`; the observable itself only carries the
array. -/
structure FromArrayObservable (α : Type) where
  array : List α
  deriving DecidableEq

/-- A subscription to `from_array(array, scheduler)` (source lines 83-97):
returns the trace it delivers and the observable as later subscribers see
it (the subscribe function reads the array and mutates only its own local
counter, so the observable is returned unchanged). -/
def from_array_subscribe {α : Type} (o : FromArrayObservable α) :
    List (Event PyVal α) × FromArrayObservable α :=
  (from_array_loop o.array 0, o)

/-- One invocation of a user callback by `generate`, recorded with the
state it was invoked on: `iterate(s)`, `condition(s)` or
`result_selector(s)`. -/
inductive GenCall (σ : Type) where
  | iter (s : σ)
  | cond (s : σ)
  | sel (s : σ)
  deriving DecidableEq, Repr

/-- One execution of the recursive action of `generate` (source lines
125-148), from the pair `(first, state)` of the `nonlocal` variables.
User callbacks may raise, modelled by `Except`.  Faithful to the guarded
block: on the first iteration `iterate` is skipped, afterwards
`state = iterate(state)`; then `has_result = condition(state)` and, if it
holds, `result = result_selector(state)`; any raise inside the block turns
into a single `on_error` and ends the iteration.  Returns the callback
invocations made, the events emitted, and `some state` when the action
re-schedules itself (`action1()`). -/
def generate_step {ε σ α : Type} (condition : σ → Except ε Bool)
    (iterate : σ → Except ε σ) (result_selector : σ → Except ε α)
    (first : Bool) (state : σ) :
    List (GenCall σ) × List (Event ε α) × Option σ :=
  let iter_calls : List (GenCall σ) := if first then [] else [GenCall.iter state]
  let state1 : Except ε σ := if first then Except.ok state else iterate state
  match state1 with
  | .error exception => (iter_calls, [Event.on_error exception], none)
  | .ok s =>
    match condition s with
    | .error exception =>
        (iter_calls ++ [GenCall.cond s], [Event.on_error exception], none)
    | .ok has_result =>
      if has_result then
        match result_selector s with
        | .error exception =>
            (iter_calls ++ [GenCall.cond s, GenCall.sel s],
             [Event.on_error exception], none)
        | .ok result =>
            (iter_calls ++ [GenCall.cond s, GenCall.sel s],
             [Event.on_next result], some s)
      else (iter_calls ++ [GenCall.cond s], [Event.on_completed], none)

/-- The trampoline draining the chain of `generate` actions, bounded by
`fuel` iterations (the loop need not terminate for arbitrary callbacks):
the calls made and events delivered by the first `fuel` iterations from
`(first, state)`. -/
def generate_loop {ε σ α : Type} (condition : σ → Except ε Bool)
    (iterate : σ → Except ε σ) (result_selector : σ → Except ε α) :
    Nat → Bool → σ → List (GenCall σ) × List (Event ε α)
  | 0, _, _ => ([], [])
  | fuel + 1, first, state =>
    match generate_step condition iterate result_selector first state with
    | (calls, events, none) => (calls, events)
    | (calls, events, some s) =>
      let rest := generate_loop condition iterate result_selector fuel false s
      (calls ++ rest.1, events ++ rest.2)

/-- The event trace of a `generate` subscription within `fuel` trampoline
iterations. -/
def generate_events {ε σ α : Type} (condition : σ → Except ε Bool)
    (iterate : σ → Except ε σ) (result_selector : σ → Except ε α)
    (fuel : Nat) (first : Bool) (state : σ) : List (Event ε α) :=
  (generate_loop condition iterate result_selector fuel first state).2

/-- `generate`'s observable carries the four construction arguments
(source line 100); the `nonlocal` pair `first = True, state = initial_state`
is created afresh inside each call of `subscribe` (source lines 122-123). -/
structure GenerateObservable (ε σ α : Type) where
  initial_state : σ
  condition : σ → Except ε Bool
  iterate : σ → Except ε σ
  result_selector : σ → Except ε α

/-- A subscription to `generate(...)` (source lines 121-150) within `fuel`
trampoline iterations: delivers the trace starting from
`first = True, state = initial_state` and leaves the observable unchanged
for later subscribers. -/
def generate_subscribe {ε σ α : Type} (fuel : Nat) (g : GenerateObservable ε σ α) :
    List (Event ε α) × GenerateObservable ε σ α :=
  (generate_events g.condition g.iterate g.result_selector fuel true g.initial_state, g)

/-- `defer(observable_factory)` (source lines 20-42): each subscription
calls the factory once; if it raises, the observer is subscribed to
`throw_exception(ex)` instead, and in either case `subscribe` returns the
inner subscription's disposable rather than re-raising.  The first
component counts the factory invocations the subscription makes. -/
def defer_subscribe {α ρ : Type} (observable_factory : Except PyVal (Obs PyVal α ρ)) :
    Nat × (List (Event PyVal α) × Disp ρ) :=
  match observable_factory with
  | .error ex => (1, (throw_exception α ρ ex).subscribe)
  | .ok result => (1, result.subscribe)

/-- `using(resource_factory, observable_factory)` (source lines 282-294):
`disposable = Disposable.empty()`; `resource = resource_factory()`, and if
`resource` is truthy it becomes the disposable; `source =
observable_factory(resource)`; if either factory raises, the observer is
subscribed to `throw_exception(exception)` and the result is
`CompositeDisposable(d, disposable)`; otherwise it is
`CompositeDisposable(source.subscribe(observer), disposable)`.
Python truthiness of the resource is modelled by the predicate `truthy`. -/
def using_subscribe {α ρ : Type} (resource_factory : Except PyVal ρ)
    (truthy : ρ → Bool) (observable_factory : ρ → Except PyVal (Obs PyVal α ρ)) :
    List (Event PyVal α) × Disp ρ :=
  match resource_factory with
  | .error exception =>
      let d := (throw_exception α ρ exception).subscribe
      (d.1, Disp.composite d.2 Disp.empty)
  | .ok resource =>
      let disposable := if truthy resource then Disp.resource resource else Disp.empty
      match observable_factory resource with
      | .error exception =>
          let d := (throw_exception α ρ exception).subscribe
          (d.1, Disp.composite d.2 disposable)
      | .ok source =>
          let s := source.subscribe
          (s.1, Disp.composite s.2 disposable)

/-- Modelled from the spec: the two default scheduler singletons
(`immediate_scheduler`, `current_thread_scheduler` imported on source
line 5), plus other scheduler instances a caller may pass (e.g. timeout
schedulers), identified by a tag.  Scheduler objects are truthy in Python;
only an absent / `None` argument is falsy. -/
inductive Sched where
  | immediate
  | currentThread
  | other (tag : Nat)
  deriving DecidableEq, Repr

/-- The catalog of creation operators defined by `ObservableCreation`. -/
inductive CreationOp where
  | create
  | create_with_disposable
  | defer
  | empty
  | from_array
  | generate
  | never
  | range
  | repeat
  | return_value
  | throw_exception
  | using
  deriving DecidableEq, Repr

/-- Whether the operator's `def` line declares a scheduler parameter, and
if so whether that parameter has a default value (`scheduler=None`),
transcribed from the source signatures: `create(subscribe)` (l.10),
`create_with_disposable(subscribe)` (l.17), `defer(observable_factory)`
(l.21), `empty(scheduler=None)` (l.45), `from_array(array, scheduler)`
(l.67, required), `generate(..., scheduler=None)` (l.100), `never()`
(l.154), `range(start, count, scheduler=None)` (l.166),
`repeat(value=None, repeat_count=None, scheduler=None)` (l.199),
`return_value(value, scheduler=None)` (l.229),
`throw_exception(exception, scheduler=None)` (l.241),
`using(resource_factory, observable_factory)` (l.268).
`none` means no scheduler parameter; `some b` means a scheduler parameter
that is optional exactly when `b`. -/
def scheduler_param : CreationOp → Option Bool
  | .create => none
  | .create_with_disposable => none
  | .defer => none
  | .empty => some true
  | .from_array => some false
  | .generate => some true
  | .never => none
  | .range => some true
  | .repeat => some true
  | .return_value => some true
  | .throw_exception => some true
  | .using => none

/-- The fallback scheduler in the operator's `scheduler = scheduler or ...`
line, for the operators that have one: `empty` l.57, `from_array` l.81,
`generate` l.119, `range` l.183, `repeat` l.220, `return_value` l.230,
`throw_exception` l.256. -/
def operator_fallback : CreationOp → Option Sched
  | .empty => some Sched.immediate
  | .return_value => some Sched.immediate
  | .throw_exception => some Sched.immediate
  | .from_array => some Sched.currentThread
  | .generate => some Sched.currentThread
  | .range => some Sched.currentThread
  | .repeat => some Sched.currentThread
  | _ => none

/-- `scheduler = scheduler or fallback`: an absent or `None` argument
(modelled `none`, the only falsy case) is replaced by the fallback;
a scheduler object passed by the caller is kept. -/
def resolve_scheduler (arg : Option Sched) (fallback : Sched) : Sched :=
  match arg with
  | some s => s
  | none => fallback

/-! ## Trace lemmas for the iterative loops -/

/-- The `range` action unfolded from any state `0 ≤ i ≤ count`: the events
still to come are `on_next(start + i), …, on_next(start + count - 1)`
followed by `on_completed`. -/
theorem range_loop_spec (start count : Int) (i : Int) (h0 : 0 ≤ i)
    (h : i ≤ count) :
    range_loop start count i =
      (List.range (count - i).toNat).map
          (fun (k : Nat) => Event.on_next (start + i + (k : Int)))
        ++ [Event.on_completed] := by
  obtain ⟨n, hn⟩ : ∃ n, (count - i).toNat = n := ⟨_, rfl⟩
  induction n generalizing i with
  | zero =>
    have hge : ¬ i < count := by omega
    rw [range_loop, if_neg hge, hn]
    simp
  | succ n ih =>
    have hlt : i < count := by omega
    have hn2 : (count - (i + 1)).toNat = n := by omega
    rw [range_loop, if_pos hlt, ih (i + 1) (by omega) (by omega) hn2, hn2, hn,
      List.range_succ_eq_map, List.map_cons, List.map_map]
    have harg : ((fun (k : Nat) => Event.on_next (ε := PyVal) (start + i + (k : Int)))
        ∘ Nat.succ) = fun (k : Nat) => Event.on_next (start + (i + 1) + (k : Int)) := by
      funext k
      simp only [Function.comp_apply]
      congr 1
      push_cast
      ring
    rw [harg]
    simp

/-- The `from_array` action unfolded from any counter value: the events
still to come are the remaining elements, then `on_completed`. -/
theorem from_array_loop_spec {α : Type} (array : List α) (count : Nat) :
    from_array_loop array count =
      (array.drop count).map Event.on_next ++ [Event.on_completed] := by
  obtain ⟨n, hn⟩ : ∃ n, array.length - count = n := ⟨_, rfl⟩
  induction n generalizing count with
  | zero =>
    have hge : ¬ count < array.length := by omega
    rw [from_array_loop]
    simp only [hge, dite_false, dif_neg]
    rw [List.drop_eq_nil_of_le (by omega)]
    simp
  | succ n ih =>
    have hlt : count < array.length := by
      omega
    rw [from_array_loop, dif_pos hlt, ih (count + 1) (by omega),
      List.drop_eq_getElem_cons hlt, List.map_cons]
    simp

/-! ## C1: range delivers exactly the arithmetic sequence then completes -/

/-- Claim C1: for every integer `start` and every `n ≥ 0`, subscribing to
`range(start, n)` delivers exactly `on_next(start), on_next(start+1), …,
on_next(start+n-1)` in that order, followed by exactly one `on_completed`,
and never calls `on_error`. -/
theorem range_delivers_exact_sequence (start n : Int) (h : 0 ≤ n) :
    range_subscribe start n =
      (List.range n.toNat).map (fun (k : Nat) => Event.on_next (start + (k : Int)))
        ++ [Event.on_completed] ∧
    (range_subscribe start n).countP (fun e => e.isOnError) = 0 ∧
    (range_subscribe start n).countP (fun e => e.isOnCompleted) = 1 := by
  have hmain : range_subscribe start n =
      (List.range n.toNat).map (fun (k : Nat) => Event.on_next (start + (k : Int)))
        ++ [Event.on_completed] := by
    unfold range_subscribe
    rw [range_loop_spec start n 0 le_rfl h]
    simp
  refine ⟨hmain, ?_, ?_⟩ <;>
    simp [hmain, List.countP_append, List.countP_map, List.countP_eq_zero,
      Event.isOnError, Event.isOnCompleted, List.countP_cons]

/-- Witness for C1 at `start = 5`, `n = 3`. -/
theorem range_delivers_exact_sequence_witness :
    range_subscribe 5 3 =
      (List.range (3 : Int).toNat).map
          (fun (k : Nat) => Event.on_next (5 + (k : Int)))
        ++ [Event.on_completed] ∧
    (range_subscribe 5 3).countP (fun e => e.isOnError) = 0 ∧
    (range_subscribe 5 3).countP (fun e => e.isOnCompleted) = 1 :=
  range_delivers_exact_sequence 5 3 (by decide)

/-! ## C2: generate with non-raising callbacks -/

/-- Unfolding one `generate` action with `first = True` and non-raising
callbacks: evaluate `condition(state)`; if it holds, emit
`result_selector(state)` and continue with `first = False`, else
complete. -/
theorem generate_events_true_pure {ε σ α : Type} (condP : σ → Bool)
    (iterF : σ → σ) (selF : σ → α) (fuel : Nat) (s : σ) :
    generate_events (ε := ε) (fun s => Except.ok (condP s))
        (fun s => Except.ok (iterF s)) (fun s => Except.ok (selF s))
        (fuel + 1) true s =
      (if condP s then
        Event.on_next (selF s) ::
          generate_events (fun s => Except.ok (condP s))
            (fun s => Except.ok (iterF s)) (fun s => Except.ok (selF s))
            fuel false s
      else [Event.on_completed]) := by
  by_cases h : condP s <;>
    simp [generate_events, generate_loop, generate_step, h]

/-- With non-raising callbacks, an action run with `first = False` from
state `s` delivers the same events as one run with `first = True` from
`iterate(s)`: the only difference is that `iterate` is applied first. -/
theorem generate_events_false_pure {ε σ α : Type} (condP : σ → Bool)
    (iterF : σ → σ) (selF : σ → α) (fuel : Nat) (s : σ) :
    generate_events (ε := ε) (fun s => Except.ok (condP s))
        (fun s => Except.ok (iterF s)) (fun s => Except.ok (selF s))
        fuel false s =
      generate_events (fun s => Except.ok (condP s))
        (fun s => Except.ok (iterF s)) (fun s => Except.ok (selF s))
        fuel true (iterF s) := by
  cases fuel with
  | zero => rfl
  | succ fuel =>
    by_cases h : condP (iterF s) <;>
      simp [generate_events, generate_loop, generate_step, h]

/-- Claim C2: for non-raising callbacks, `generate` skips `iterate` on the
first iteration and applies it on every later one, so the state on
iteration `k` is `iterate^[k](initial_state)`; while `condition` holds it
emits `result_selector` of the state, and at the first `N` with
`condition(iterate^[N](initial_state))` false it delivers exactly one
`on_completed` (within any fuel bound of at least `N + 1` trampoline
iterations). -/
theorem generate_emits_while_condition_holds {ε σ α : Type}
    (initial_state : σ) (condP : σ → Bool) (iterF : σ → σ) (selF : σ → α)
    (N fuel : Nat)
    (hcond : ∀ k, k < N → condP (iterF^[k] initial_state) = true)
    (hstop : condP (iterF^[N] initial_state) = false)
    (hfuel : N + 1 ≤ fuel) :
    generate_events (ε := ε) (fun s => Except.ok (condP s))
        (fun s => Except.ok (iterF s)) (fun s => Except.ok (selF s))
        fuel true initial_state =
      (List.range N).map
          (fun (k : Nat) => Event.on_next (selF (iterF^[k] initial_state)))
        ++ [Event.on_completed] := by
  induction N generalizing initial_state fuel with
  | zero =>
    obtain ⟨fuel', rfl⟩ : ∃ f, fuel = f + 1 := ⟨fuel - 1, by omega⟩
    rw [generate_events_true_pure]
    simp only [Function.iterate_zero, id_eq] at hstop
    simp [hstop]
  | succ N ih =>
    obtain ⟨fuel', rfl⟩ : ∃ f, fuel = f + 1 := ⟨fuel - 1, by omega⟩
    have h0 : condP initial_state = true := by
      have := hcond 0 (by omega)
      simpa using this
    rw [generate_events_true_pure, if_pos h0, generate_events_false_pure]
    have hcond' : ∀ k, k < N → condP (iterF^[k] (iterF initial_state)) = true := by
      intro k hk
      have := hcond (k + 1) (by omega)
      rwa [Function.iterate_succ_apply] at this
    have hstop' : condP (iterF^[N] (iterF initial_state)) = false := by
      rwa [Function.iterate_succ_apply] at hstop
    rw [ih (iterF initial_state) fuel' hcond' hstop' (by omega)]
    rw [List.range_succ_eq_map, List.map_cons, List.map_map]
    have harg : ((fun (k : Nat) =>
          Event.on_next (ε := ε) (selF (iterF^[k] initial_state))) ∘ Nat.succ)
        = fun (k : Nat) => Event.on_next (selF (iterF^[k] (iterF initial_state))) := by
      funext k
      simp [Function.comp_apply, Function.iterate_succ_apply]
    rw [harg]
    simp

/-- Witness for C2: `generate(0, λx. x < 3, λx. x + 1, λx. x)` emits
`0, 1, 2` then `on_completed`. -/
theorem generate_emits_while_condition_holds_witness :
    generate_events (ε := PyVal) (fun s : Nat => Except.ok (decide (s < 3)))
        (fun s => Except.ok (s + 1)) (fun s => Except.ok s) 4 true 0 =
      (List.range 3).map
          (fun (k : Nat) => Event.on_next ((fun s : Nat => s) ((fun s : Nat => s + 1)^[k] 0)))
        ++ [Event.on_completed] :=
  generate_emits_while_condition_holds 0 (fun s => decide (s < 3))
    (fun s => s + 1) (fun s => s) 3 4
    (by intro k hk; interval_cases k <;> decide) (by decide) (by omega)

/-! ## C3: errors from generate's callbacks short-circuit the iteration -/

/-- Shape of every trace a `generate` subscription can deliver: a run of
`on_next` events ended by at most one terminal event (`on_error` or
`on_completed`). -/
inductive SeqTrace {ε α : Type} : List (Event ε α) → Prop where
  | nil : SeqTrace []
  | err (e : ε) : SeqTrace [Event.on_error e]
  | comp : SeqTrace [Event.on_completed]
  | next (v : α) (t : List (Event ε α)) : SeqTrace t →
      SeqTrace (Event.on_next v :: t)

/-- Each `generate` action emits exactly one event: an `on_error` or an
`on_completed` without re-scheduling, or an `on_next` with
re-scheduling. -/
theorem generate_step_cases {ε σ α : Type} (condition : σ → Except ε Bool)
    (iterate : σ → Except ε σ) (result_selector : σ → Except ε α)
    (first : Bool) (state : σ) :
    (∃ calls e, generate_step condition iterate result_selector first state
        = (calls, [Event.on_error e], none)) ∨
    (∃ calls, generate_step condition iterate result_selector first state
        = (calls, [Event.on_completed], none)) ∨
    (∃ calls r s, generate_step condition iterate result_selector first state
        = (calls, [Event.on_next r], some s)) := by
  rcases h1 : (if first then Except.ok state else iterate state) with e | s
  · refine Or.inl ⟨if first then [] else [GenCall.iter state], e, ?_⟩
    simp [generate_step, h1]
  · rcases h2 : condition s with e | b
    · refine Or.inl
        ⟨(if first then [] else [GenCall.iter state]) ++ [GenCall.cond s], e, ?_⟩
      simp [generate_step, h1, h2]
    · by_cases hb : b
      · rcases h3 : result_selector s with e | r
        · refine Or.inl
            ⟨(if first then [] else [GenCall.iter state])
              ++ [GenCall.cond s, GenCall.sel s], e, ?_⟩
          simp [generate_step, h1, h2, h3, hb]
        · refine Or.inr (Or.inr
            ⟨(if first then [] else [GenCall.iter state])
              ++ [GenCall.cond s, GenCall.sel s], r, s, ?_⟩)
          simp [generate_step, h1, h2, h3, hb]
      · refine Or.inr (Or.inl
          ⟨(if first then [] else [GenCall.iter state]) ++ [GenCall.cond s], ?_⟩)
        simp [generate_step, h1, h2, hb]

/-- Every trace `generate` delivers (for arbitrary, possibly raising
callbacks and any fuel) has the `SeqTrace` shape. -/
theorem generate_events_seq {ε σ α : Type} (condition : σ → Except ε Bool)
    (iterate : σ → Except ε σ) (result_selector : σ → Except ε α) :
    ∀ (fuel : Nat) (first : Bool) (state : σ),
      SeqTrace (generate_events condition iterate result_selector fuel first state) := by
  intro fuel
  induction fuel with
  | zero => intro first state; exact SeqTrace.nil
  | succ fuel ih =>
    intro first state
    rcases generate_step_cases condition iterate result_selector first state with
      ⟨calls, e, hstep⟩ | ⟨calls, hstep⟩ | ⟨calls, r, s, hstep⟩
    · simp only [generate_events, generate_loop, hstep]
      exact SeqTrace.err e
    · simp only [generate_events, generate_loop, hstep]
      exact SeqTrace.comp
    · simp only [generate_events, generate_loop, hstep, List.cons_append,
        List.nil_append]
      exact SeqTrace.next r _ (ih false s)

/-- A `SeqTrace` contains at most one `on_error`. -/
theorem SeqTrace.count_error_le_one {ε α : Type} {t : List (Event ε α)}
    (h : SeqTrace t) : t.countP (fun ev => ev.isOnError) ≤ 1 := by
  induction h with
  | nil => simp
  | err e => simp [Event.isOnError]
  | comp => simp [Event.isOnError]
  | next v t ht ih => simpa [List.countP_cons, Event.isOnError] using ih

/-- In a `SeqTrace`, nothing follows an `on_error`. -/
theorem SeqTrace.error_is_last {ε α : Type} {t : List (Event ε α)}
    (h : SeqTrace t) (pre : List (Event ε α)) (e : ε) (suf : List (Event ε α))
    (heq : t = pre ++ Event.on_error e :: suf) : suf = [] := by
  induction h generalizing pre with
  | nil => cases pre <;> simp at heq
  | err e' =>
    cases pre with
    | nil =>
      simp only [List.nil_append, List.cons.injEq] at heq
      exact heq.2.symm
    | cons a pre' =>
      simp only [List.cons_append, List.cons.injEq] at heq
      rcases heq with ⟨-, heq⟩
      cases pre' <;> simp at heq
  | comp =>
    cases pre with
    | nil => simp at heq
    | cons a pre' =>
      simp only [List.cons_append, List.cons.injEq] at heq
      rcases heq with ⟨-, heq⟩
      cases pre' <;> simp at heq
  | next v t ht ih =>
    cases pre with
    | nil => simp at heq
    | cons a pre' =>
      simp only [List.cons_append, List.cons.injEq] at heq
      exact ih pre' heq.2

/-- Claim C3: if a `generate` callback raises, the error is delivered as
exactly one `on_error`, which is the last event of the trace (iteration
stops).  In particular, with `result_selector` raising on the second
iteration, two iterations run (calls `condition(0)`, `result_selector(0)`,
`iterate(0)`, `condition(1)`, `result_selector(1)` and nothing after), and
the trace is exactly one `on_next` then one `on_error`. -/
theorem generate_error_short_circuits {ε σ α : Type}
    (condition : σ → Except ε Bool) (iterate : σ → Except ε σ)
    (result_selector : σ → Except ε α) (fuel : Nat) (first : Bool) (state : σ)
    (pre suf : List (Event ε α)) (e : ε)
    (hdecomp : generate_events condition iterate result_selector fuel first state
       = pre ++ Event.on_error e :: suf) :
    suf = [] ∧
    (generate_events condition iterate result_selector fuel first state).countP
        (fun ev => ev.isOnError) = 1 ∧
    generate_loop (ε := PyVal) (σ := Nat) (α := Nat)
        (fun s => Except.ok (decide (s < 5))) (fun s => Except.ok (s + 1))
        (fun s => if s = 1 then Except.error (PyVal.exc_sub 0) else Except.ok s)
        10 true 0
      = ([GenCall.cond 0, GenCall.sel 0, GenCall.iter 0, GenCall.cond 1,
          GenCall.sel 1],
         [Event.on_next 0, Event.on_error (PyVal.exc_sub 0)]) := by
  have hseq := generate_events_seq condition iterate result_selector fuel first state
  refine ⟨hseq.error_is_last pre e suf hdecomp, ?_, by decide⟩
  have hle := hseq.count_error_le_one
  have hge : 1 ≤ (generate_events condition iterate result_selector
      fuel first state).countP (fun ev => ev.isOnError) := by
    rw [hdecomp]
    simp [List.countP_append, List.countP_cons, Event.isOnError]
    omega
  omega

/-- Witness for C3 at the concrete raising selector. -/
theorem generate_error_short_circuits_witness :
    ([] : List (Event PyVal Nat)) = [] ∧
    (generate_events (ε := PyVal) (σ := Nat) (α := Nat)
        (fun s => Except.ok (decide (s < 5))) (fun s => Except.ok (s + 1))
        (fun s => if s = 1 then Except.error (PyVal.exc_sub 0) else Except.ok s)
        10 true 0).countP (fun ev => ev.isOnError) = 1 ∧
    generate_loop (ε := PyVal) (σ := Nat) (α := Nat)
        (fun s => Except.ok (decide (s < 5))) (fun s => Except.ok (s + 1))
        (fun s => if s = 1 then Except.error (PyVal.exc_sub 0) else Except.ok s)
        10 true 0
      = ([GenCall.cond 0, GenCall.sel 0, GenCall.iter 0, GenCall.cond 1,
          GenCall.sel 1],
         [Event.on_next 0, Event.on_error (PyVal.exc_sub 0)]) :=
  generate_error_short_circuits
    (fun s => Except.ok (decide (s < 5))) (fun s => Except.ok (s + 1))
    (fun s => if s = 1 then Except.error (PyVal.exc_sub 0) else Except.ok s)
    10 true 0 [Event.on_next 0] [] (PyVal.exc_sub 0) (by decide)

/-! ## C6 / C7: throw_exception -/

/-- `Exception(e)` is a fresh object, never equal to `e` itself. -/
theorem exc_base_arg_ne (e : PyVal) : PyVal.exc_base_arg e ≠ e := by
  intro h
  have hs := congrArg sizeOf h
  simp only [PyVal.exc_base_arg.sizeOf_spec] at hs
  omega

/-- Claim C7: `throw_exception(e)` wraps its argument if and only if the
argument's type is literally the base `Exception` type; the delivered
error is `throw_wrap e`, which equals `Exception(e)` exactly when
`type(e) is Exception`, and equals `e` itself exactly otherwise. -/
theorem throw_exception_wrap_iff (α ρ : Type) (e : PyVal) :
    (throw_exception α ρ e).events = [Event.on_error (throw_wrap e)] ∧
    (throw_wrap e = PyVal.exc_base_arg e ↔ type_is_exception e = true) ∧
    (throw_wrap e = e ↔ type_is_exception e = false) := by
  refine ⟨rfl, ?_, ?_⟩ <;> by_cases h : type_is_exception e <;>
    simp [throw_wrap, h, exc_base_arg_ne e, (exc_base_arg_ne e).symm]

/-- Counterexample to claim C6 as stated: for an instance `e` of exactly
the base `Exception` class, the error delivered by `throw_exception(e)` is
the fresh wrapper `Exception(e)`, not the same object `e`. -/
theorem throw_exception_not_same_object :
    (throw_exception Nat Nat PyVal.exc_base_noarg).events
      ≠ [Event.on_error PyVal.exc_base_noarg] ∧
    (throw_exception Nat Nat PyVal.exc_base_noarg).events
      = [Event.on_error (PyVal.exc_base_arg PyVal.exc_base_noarg)] := by
  decide

/-- Claim C6 (amended): subscribing to `throw_exception(e)` delivers zero
`on_next`, exactly one `on_error`, and zero `on_completed`; the carried
error is `e` itself unless `type(e)` is literally `Exception`, in which
case it is the wrapper `Exception(e)`. -/
theorem throw_exception_single_error (α ρ : Type) (e : PyVal) :
    (throw_exception α ρ e).events = [Event.on_error (throw_wrap e)] ∧
    (throw_exception α ρ e).events.countP (fun ev => ev.isOnNext) = 0 ∧
    (throw_exception α ρ e).events.countP (fun ev => ev.isOnError) = 1 ∧
    (throw_exception α ρ e).events.countP (fun ev => ev.isOnCompleted) = 0 ∧
    throw_wrap e
      = (if type_is_exception e then PyVal.exc_base_arg e else e) := by
  refine ⟨rfl, ?_, ?_, ?_, rfl⟩ <;>
    simp [throw_exception, Event.isOnNext, Event.isOnError, Event.isOnCompleted,
      List.countP_cons]

/-! ## C5: defer -/

/-- Claim C5: each subscription to `defer(factory)` calls the factory
exactly once; if the factory returns an observable the observer is
subscribed to it, and if the factory raises the observer is subscribed to
`throw_exception(ex)` instead, receiving the error as an `on_error`
notification while `subscribe` still returns the (empty) disposable of
that error subscription rather than letting the exception propagate (the
model's subscribe is a total function: it always returns a trace and a
disposable). -/
theorem defer_invokes_factory_once {α ρ : Type}
    (observable_factory : Except PyVal (Obs PyVal α ρ)) :
    (defer_subscribe observable_factory).1 = 1 ∧
    (∀ result, observable_factory = Except.ok result →
       (defer_subscribe observable_factory).2 = result.subscribe) ∧
    (∀ ex, observable_factory = Except.error ex →
       (defer_subscribe observable_factory).2
         = (throw_exception α ρ ex).subscribe ∧
       (defer_subscribe observable_factory).2.1
         = [Event.on_error (throw_wrap ex)] ∧
       (defer_subscribe observable_factory).2.2 = Disp.empty) := by
  cases observable_factory with
  | ok result =>
    refine ⟨rfl, ?_, ?_⟩ <;> intro x hx <;> simp_all [defer_subscribe]
  | error ex =>
    refine ⟨rfl, ?_, ?_⟩ <;> intro x hx <;>
      simp_all [defer_subscribe, throw_exception, Obs.subscribe]

/-- Witness for C5 with a factory that raises a `ValueError`-like
subclass instance. -/
theorem defer_invokes_factory_once_witness :
    (defer_subscribe (α := Nat) (ρ := Nat)
        (Except.error (PyVal.exc_sub 3))).1 = 1 ∧
    (defer_subscribe (α := Nat) (ρ := Nat)
        (Except.error (PyVal.exc_sub 3))).2
      = (throw_exception Nat Nat (PyVal.exc_sub 3)).subscribe ∧
    (defer_subscribe (α := Nat) (ρ := Nat)
        (Except.error (PyVal.exc_sub 3))).2.1
      = [Event.on_error (throw_wrap (PyVal.exc_sub 3))] ∧
    (defer_subscribe (α := Nat) (ρ := Nat)
        (Except.error (PyVal.exc_sub 3))).2.2 = Disp.empty := by
  have h := defer_invokes_factory_once (α := Nat) (ρ := Nat)
    (Except.error (PyVal.exc_sub 3))
  exact ⟨h.1, (h.2.2 _ rfl).1, (h.2.2 _ rfl).2.1, (h.2.2 _ rfl).2.2⟩

/-! ## C4 / C10: using -/

/-- Counterexample to claim C4 as stated: a falsy resource acquired just
before `observable_factory` raises is replaced by `Disposable.empty()` in
the composed disposable (`if resource:` on source line 286), so the
acquired resource `0` is not in the set of resources the returned
disposable releases. -/
theorem using_falsy_resource_not_disposed :
    (using_subscribe (α := Nat) (ρ := Nat) (Except.ok 0) (fun _ => false)
        (fun _ => Except.error (PyVal.exc_sub 1))).1
      = [Event.on_error (PyVal.exc_sub 1)] ∧
    ((using_subscribe (α := Nat) (ρ := Nat) (Except.ok 0) (fun _ => false)
        (fun _ => Except.error (PyVal.exc_sub 1))).2).resources = [] := by
  decide

/-- Claim C4 (amended): if either factory raises during subscription to
`using` before the dependent subscription exists, the observer receives
exactly one `on_error` and `subscribe` still returns a disposable that
composes (via `CompositeDisposable`) the error subscription with the
partially acquired resource; any *truthy* resource already acquired is
therefore disposed with the subscription, while a falsy resource is
replaced by the empty disposable. -/
theorem using_factory_error_disposes_truthy {α ρ : Type}
    (resource_factory : Except PyVal ρ) (truthy : ρ → Bool)
    (observable_factory : ρ → Except PyVal (Obs PyVal α ρ)) :
    (∀ e, resource_factory = Except.error e →
       using_subscribe resource_factory truthy observable_factory
         = ([Event.on_error (throw_wrap e)],
            Disp.composite Disp.empty Disp.empty)) ∧
    (∀ r e, resource_factory = Except.ok r →
       observable_factory r = Except.error e →
       using_subscribe resource_factory truthy observable_factory
         = ([Event.on_error (throw_wrap e)],
            Disp.composite Disp.empty
              (if truthy r then Disp.resource r else Disp.empty)) ∧
       (truthy r = true →
          ((using_subscribe resource_factory truthy
              observable_factory).2).resources = [r])) := by
  constructor
  · intro e he
    simp [using_subscribe, he, throw_exception, Obs.subscribe]
  · intro r e hr hobs
    constructor
    · simp [using_subscribe, hr, hobs, throw_exception, Obs.subscribe]
    · intro ht
      simp [using_subscribe, hr, hobs, ht, throw_exception, Obs.subscribe,
        Disp.resources]

/-- Witness for C4 (amended) with a truthy resource `5` and an observable
factory that raises. -/
theorem using_factory_error_disposes_truthy_witness :
    (using_subscribe (α := Nat) (ρ := Nat) (Except.ok 5) (fun _ => true)
        (fun _ => Except.error (PyVal.exc_sub 1))
       = ([Event.on_error (throw_wrap (PyVal.exc_sub 1))],
          Disp.composite Disp.empty
            (if (fun _ : Nat => true) 5 then Disp.resource 5 else Disp.empty)) ∧
     (((fun _ : Nat => true) 5) = true →
        ((using_subscribe (α := Nat) (ρ := Nat) (Except.ok 5) (fun _ => true)
            (fun _ => Except.error (PyVal.exc_sub 1))).2).resources = [5])) :=
  (using_factory_error_disposes_truthy (α := Nat) (ρ := Nat) (Except.ok 5)
      (fun _ => true) (fun _ => Except.error (PyVal.exc_sub 1))).2 5
    (PyVal.exc_sub 1) rfl rfl

/-- Claim C10: when `resource_factory` returns a falsy resource and
`observable_factory` succeeds, the empty disposable is composed in place
of the resource, so disposing the subscription releases only what the
dependent subscription holds and never the falsy resource itself. -/
theorem using_falsy_resource_replaced_by_empty {α ρ : Type}
    (resource_factory : Except PyVal ρ) (truthy : ρ → Bool)
    (observable_factory : ρ → Except PyVal (Obs PyVal α ρ)) (r : ρ)
    (source : Obs PyVal α ρ)
    (hr : resource_factory = Except.ok r) (hfalsy : truthy r = false)
    (hobs : observable_factory r = Except.ok source) :
    using_subscribe resource_factory truthy observable_factory
      = (source.events, Disp.composite source.disp Disp.empty) ∧
    ((using_subscribe resource_factory truthy
        observable_factory).2).resources = source.disp.resources ∧
    (r ∉ source.disp.resources →
       r ∉ ((using_subscribe resource_factory truthy
          observable_factory).2).resources) := by
  have hmain : using_subscribe resource_factory truthy observable_factory
      = (source.events, Disp.composite source.disp Disp.empty) := by
    simp [using_subscribe, hr, hfalsy, hobs, Obs.subscribe]
  refine ⟨hmain, ?_, ?_⟩ <;> simp [hmain, Disp.resources]

/-- Witness for C10 with falsy resource `0` and a dependent observable
that completes immediately holding no resources. -/
theorem using_falsy_resource_replaced_by_empty_witness :
    using_subscribe (α := Nat) (ρ := Nat) (Except.ok 0) (fun _ => false)
        (fun _ => Except.ok ⟨[Event.on_completed], Disp.empty⟩)
      = ([Event.on_completed],
         Disp.composite Disp.empty Disp.empty) ∧
    ((using_subscribe (α := Nat) (ρ := Nat) (Except.ok 0) (fun _ => false)
        (fun _ => Except.ok ⟨[Event.on_completed], Disp.empty⟩)).2).resources
      = (Disp.empty (ρ := Nat)).resources ∧
    ((0 : Nat) ∉ (Disp.empty (ρ := Nat)).resources →
       (0 : Nat) ∉ ((using_subscribe (α := Nat) (ρ := Nat) (Except.ok 0)
          (fun _ => false)
          (fun _ => Except.ok ⟨[Event.on_completed], Disp.empty⟩)).2).resources) :=
  using_falsy_resource_replaced_by_empty (Except.ok 0) (fun _ => false)
    (fun _ => Except.ok ⟨[Event.on_completed], Disp.empty⟩) 0
    ⟨[Event.on_completed], Disp.empty⟩ rfl rfl rfl

/-! ## C8: subscriptions are independent -/

/-- Claim C8: subscribing does not mutate the observable, and every
subscription constructs its iteration state afresh: two successive
subscriptions to the same `from_array` observable each deliver the full
element sequence from index `0`, and two successive subscriptions to the
same `generate` observable each start from `initial_state` with the first
iteration skipping `iterate` (`first = true`). -/
theorem subscriptions_are_independent {α ε σ β : Type} :
    (∀ (array : List α),
       (from_array_subscribe ⟨array⟩).2 = ⟨array⟩ ∧
       (from_array_subscribe ((from_array_subscribe ⟨array⟩).2)).1
         = (from_array_subscribe ⟨array⟩).1 ∧
       (from_array_subscribe ⟨array⟩).1
         = array.map Event.on_next ++ [Event.on_completed]) ∧
    (∀ (g : GenerateObservable ε σ β) (fuel : Nat),
       (generate_subscribe fuel g).2 = g ∧
       (generate_subscribe fuel ((generate_subscribe fuel g).2)).1
         = (generate_subscribe fuel g).1 ∧
       (generate_subscribe fuel g).1
         = generate_events g.condition g.iterate g.result_selector fuel
             true g.initial_state) := by
  constructor
  · intro array
    refine ⟨rfl, rfl, ?_⟩
    have h := from_array_loop_spec array 0
    simpa [from_array_subscribe] using h
  · intro g fuel
    exact ⟨rfl, rfl, rfl⟩

/-! ## C9: scheduler parameters and defaults -/

/-- Counterexample to claim C9 as stated: `from_array`'s scheduler
parameter has no default value — it must be passed — and `defer` has no
scheduler parameter at all, so not every creation operator accepts an
optional scheduler argument. -/
theorem scheduler_param_counterexample :
    scheduler_param CreationOp.from_array = some false ∧
    scheduler_param CreationOp.defer = none := by
  decide

/-- Claim C9 (amended): `empty`, `return_value`, `throw_exception`,
`range`, `generate` and `repeat` accept an optional scheduler argument;
when it is absent or `None`, the single-shot operators fall back to the
immediate scheduler and the iterative ones to the current-thread
scheduler.  `from_array` requires its scheduler argument (passing `None`
also falls back to the current-thread scheduler), and `defer`, `using`,
`never`, `create` and `create_with_disposable` take no scheduler. -/
theorem scheduler_defaults :
    (scheduler_param CreationOp.empty = some true ∧
     operator_fallback CreationOp.empty = some Sched.immediate) ∧
    (scheduler_param CreationOp.return_value = some true ∧
     operator_fallback CreationOp.return_value = some Sched.immediate) ∧
    (scheduler_param CreationOp.throw_exception = some true ∧
     operator_fallback CreationOp.throw_exception = some Sched.immediate) ∧
    (scheduler_param CreationOp.range = some true ∧
     operator_fallback CreationOp.range = some Sched.currentThread) ∧
    (scheduler_param CreationOp.generate = some true ∧
     operator_fallback CreationOp.generate = some Sched.currentThread) ∧
    (scheduler_param CreationOp.repeat = some true ∧
     operator_fallback CreationOp.repeat = some Sched.currentThread) ∧
    (scheduler_param CreationOp.from_array = some false ∧
     operator_fallback CreationOp.from_array = some Sched.currentThread) ∧
    (scheduler_param CreationOp.defer = none ∧
     scheduler_param CreationOp.using = none ∧
     scheduler_param CreationOp.never = none ∧
     scheduler_param CreationOp.create = none ∧
     scheduler_param CreationOp.create_with_disposable = none) ∧
    (∀ fallback, resolve_scheduler none fallback = fallback) ∧
    (∀ s fallback, resolve_scheduler (some s) fallback = s) := by
  refine ⟨by decide, by decide, by decide, by decide, by decide, by decide,
    by decide, by decide, fun fallback => rfl, fun s fallback => rfl⟩

end RxCreation
